import Mathlib

/-
  Shallow embedding of the FinHealth scoring/benchmarking/forecasting core
  (src/backend/services/health_score_engine.py, health_score.py,
   financial_calculator.py, industry_benchmark.py, forecasting_engine.py).
  Python floats are modelled as exact rationals; Python round(x, n) is
  modelled as decimal round-half-to-even on the rationals.
-/

namespace FinHealth

/-- Round-half-to-even on rationals, the idealization of Python round
applied to an exact decimal value. -/
def roundHalfEven (x : ℚ) : ℤ :=
  let f : ℤ := ⌊x⌋
  let r : ℚ := x - (f : ℚ)
  if r < 1/2 then f
  else if 1/2 < r then f + 1
  else if f % 2 = 0 then f else f + 1

/-- Python round(x, nd) on an exact rational value. -/
def pyRound (nd : ℕ) (x : ℚ) : ℚ :=
  ((roundHalfEven (x * 10 ^ nd) : ℚ)) / 10 ^ nd

/- ===== HealthScoreEngine scoring curves (health_score_engine.py) =====
   Each sub-metric curve is the exact if/elif chain from the source. -/

/-- Current-ratio sub-curve of HealthScoreEngine, from score_liquidity. -/
def cr_score (current_ratio : ℚ) : ℚ :=
  if current_ratio ≥ 2.0 then 100
  else if current_ratio ≥ 1.5 then 80 + (current_ratio - 1.5) * 40
  else if current_ratio ≥ 1.0 then 50 + (current_ratio - 1.0) * 60
  else if current_ratio ≥ 0.5 then 20 + (current_ratio - 0.5) * 60
  else current_ratio * 40

/-- Quick-ratio sub-curve of HealthScoreEngine, from score_liquidity. -/
def qr_score (quick_ratio : ℚ) : ℚ :=
  if quick_ratio ≥ 1.5 then 100
  else if quick_ratio ≥ 1.0 then 70 + (quick_ratio - 1.0) * 60
  else if quick_ratio ≥ 0.5 then 30 + (quick_ratio - 0.5) * 80
  else quick_ratio * 60

/-- Cash-ratio sub-curve of HealthScoreEngine, from score_liquidity. -/
def cash_score (cash_ratio : ℚ) : ℚ :=
  if cash_ratio ≥ 1.0 then 100
  else if cash_ratio ≥ 0.5 then 70 + (cash_ratio - 0.5) * 60
  else if cash_ratio ≥ 0.2 then 30 + (cash_ratio - 0.2) * 133
  else cash_ratio * 150

/-- Gross-margin sub-curve of HealthScoreEngine, from score_profitability. -/
def gm_score (gross_margin : ℚ) : ℚ :=
  if gross_margin ≥ 50 then 100
  else if gross_margin ≥ 30 then 60 + (gross_margin - 30) * 2
  else if gross_margin ≥ 15 then 30 + (gross_margin - 15) * 2
  else if gross_margin > 0 then gross_margin * 2
  else 0

/-- Net-margin sub-curve of HealthScoreEngine, from score_profitability. -/
def nm_score (net_margin : ℚ) : ℚ :=
  if net_margin ≥ 20 then 100
  else if net_margin ≥ 10 then 60 + (net_margin - 10) * 4
  else if net_margin ≥ 5 then 30 + (net_margin - 5) * 6
  else if net_margin > 0 then net_margin * 6
  else 0

/-- ROE sub-curve of HealthScoreEngine, from score_profitability. -/
def roe_score (roe : ℚ) : ℚ :=
  if roe ≥ 25 then 100
  else if roe ≥ 15 then 60 + (roe - 15) * 4
  else if roe ≥ 5 then 20 + (roe - 5) * 4
  else if roe > 0 then roe * 4
  else 0

/-- Debt-to-equity sub-curve of HealthScoreEngine, from score_solvency. -/
def de_score (debt_to_equity : ℚ) : ℚ :=
  if debt_to_equity ≤ 0.5 then 100
  else if debt_to_equity ≤ 1.0 then 70 + (1.0 - debt_to_equity) * 60
  else if debt_to_equity ≤ 2.0 then 30 + (2.0 - debt_to_equity) * 40
  else if debt_to_equity ≤ 3.0 then (3.0 - debt_to_equity) * 30
  else 0

/-- Debt-ratio sub-curve of HealthScoreEngine, from score_solvency. -/
def dr_score (debt_ratio : ℚ) : ℚ :=
  if debt_ratio ≤ 0.3 then 100
  else if debt_ratio ≤ 0.5 then 70 + (0.5 - debt_ratio) * 150
  else if debt_ratio ≤ 0.7 then 30 + (0.7 - debt_ratio) * 200
  else max 0 ((1.0 - debt_ratio) * 100)

/-- Interest-coverage sub-curve of HealthScoreEngine, from score_solvency. -/
def ic_score (interest_coverage : ℚ) : ℚ :=
  if interest_coverage ≥ 5 then 100
  else if interest_coverage ≥ 3 then 70 + (interest_coverage - 3) * 15
  else if interest_coverage ≥ 1.5 then 30 + (interest_coverage - 1.5) * 27
  else if interest_coverage > 1 then (interest_coverage - 1) * 60
  else 0

/-- Inventory-turnover sub-curve of HealthScoreEngine, from score_efficiency. -/
def it_score (inventory_turnover : ℚ) : ℚ :=
  if inventory_turnover ≥ 10 then 100
  else if inventory_turnover ≥ 5 then 60 + (inventory_turnover - 5) * 8
  else if inventory_turnover ≥ 2 then 20 + (inventory_turnover - 2) * 13.3
  else if inventory_turnover > 0 then inventory_turnover * 10
  else 50

/-- Receivables-turnover sub-curve of HealthScoreEngine, from score_efficiency. -/
def rt_score (receivables_turnover : ℚ) : ℚ :=
  if receivables_turnover ≥ 12 then 100
  else if receivables_turnover ≥ 8 then 70 + (receivables_turnover - 8) * 7.5
  else if receivables_turnover ≥ 4 then 30 + (receivables_turnover - 4) * 10
  else if receivables_turnover > 0 then receivables_turnover * 7.5
  else 50

/-- Asset-turnover sub-curve of HealthScoreEngine, from score_efficiency. -/
def at_score (asset_turnover : ℚ) : ℚ :=
  if asset_turnover ≥ 2.0 then 100
  else if asset_turnover ≥ 1.0 then 50 + (asset_turnover - 1.0) * 50
  else if asset_turnover ≥ 0.5 then 20 + (asset_turnover - 0.5) * 60
  else if asset_turnover > 0 then asset_turnover * 40
  else 0

/-- Cash-runway sub-curve of HealthScoreEngine, from score_cash_flow. -/
def runway_score (cash_runway : ℚ) : ℚ :=
  if cash_runway ≥ 365 then 100
  else if cash_runway ≥ 180 then 70 + (cash_runway - 180) * 0.16
  else if cash_runway ≥ 90 then 40 + (cash_runway - 90) * 0.33
  else if cash_runway ≥ 30 then 10 + (cash_runway - 30) * 0.5
  else cash_runway * 0.33

/-- Working-capital sub-curve of HealthScoreEngine, from score_cash_flow. -/
def wc_score (working_capital : ℚ) : ℚ :=
  if working_capital > 0 then min 100 (50 + working_capital / 10000 * 5)
  else max 0 (50 + working_capital / 10000 * 5)

/-- Working-capital-cycle sub-curve of HealthScoreEngine, from score_cash_flow. -/
def wcc_score (wc_cycle : ℚ) : ℚ :=
  if wc_cycle ≤ 30 then 100
  else if wc_cycle ≤ 60 then 70 + (60 - wc_cycle) * 1
  else if wc_cycle ≤ 90 then 40 + (90 - wc_cycle) * 1
  else if wc_cycle ≤ 120 then 20 + (120 - wc_cycle) * 0.67
  else max 0 (20 - (wc_cycle - 120) * 0.2)

/-- Canonical metrics record consumed by HealthScoreEngine (the keys that
HealthScoreCalculator extract_metrics always populates). -/
structure Metrics where
  current_ratio : ℚ
  quick_ratio : ℚ
  cash_ratio : ℚ
  gross_margin : ℚ
  net_margin : ℚ
  roe : ℚ
  debt_to_equity : ℚ
  debt_ratio : ℚ
  interest_coverage : ℚ
  inventory_turnover : ℚ
  receivables_turnover : ℚ
  asset_turnover : ℚ
  cash_runway_days : ℚ
  working_capital : ℚ
  working_capital_cycle : ℚ
deriving Repr, DecidableEq

/-- HealthScoreEngine score_liquidity. -/
def score_liquidity (m : Metrics) : ℚ :=
  cr_score m.current_ratio * 0.4 + qr_score m.quick_ratio * 0.35 +
    cash_score m.cash_ratio * 0.25

/-- HealthScoreEngine score_profitability. -/
def score_profitability (m : Metrics) : ℚ :=
  gm_score m.gross_margin * 0.3 + nm_score m.net_margin * 0.4 +
    roe_score m.roe * 0.3

/-- HealthScoreEngine score_solvency. -/
def score_solvency (m : Metrics) : ℚ :=
  de_score m.debt_to_equity * 0.35 + dr_score m.debt_ratio * 0.35 +
    ic_score m.interest_coverage * 0.30

/-- HealthScoreEngine score_efficiency. -/
def score_efficiency (m : Metrics) : ℚ :=
  it_score m.inventory_turnover * 0.35 + rt_score m.receivables_turnover * 0.35 +
    at_score m.asset_turnover * 0.30

/-- HealthScoreEngine score_cash_flow. -/
def score_cash_flow (m : Metrics) : ℚ :=
  runway_score m.cash_runway_days * 0.4 + wc_score m.working_capital * 0.3 +
    wcc_score m.working_capital_cycle * 0.3

/-- HealthScoreEngine calculate_grade. -/
def calculate_grade (score : ℚ) : String :=
  if score ≥ 90 then "A+"
  else if score ≥ 85 then "A"
  else if score ≥ 80 then "A-"
  else if score ≥ 75 then "B+"
  else if score ≥ 70 then "B"
  else if score ≥ 65 then "B-"
  else if score ≥ 60 then "C+"
  else if score ≥ 55 then "C"
  else if score ≥ 50 then "C-"
  else if score ≥ 40 then "D"
  else "F"

/-- HealthScoreEngine calculate_risk_level. -/
def calculate_risk_level (score : ℚ) : String :=
  if score ≥ 75 then "Low"
  else if score ≥ 55 then "Medium"
  else if score ≥ 35 then "High"
  else "Critical"

/-- The five category weights of HealthScoreEngine. -/
structure Weights where
  liquidity : ℚ
  profitability : ℚ
  solvency : ℚ
  efficiency : ℚ
  cash_flow : ℚ
deriving Repr, DecidableEq

/-- Sum of the five category weights. -/
def Weights.sum (w : Weights) : ℚ :=
  w.liquidity + w.profitability + w.solvency + w.efficiency + w.cash_flow

/-- HealthScoreEngine.INDUSTRY_WEIGHTS table. -/
def INDUSTRY_WEIGHTS : List (String × Weights) :=
  [ ("Manufacturing", ⟨0.20, 0.25, 0.20, 0.20, 0.15⟩),
    ("Retail", ⟨0.25, 0.20, 0.15, 0.25, 0.15⟩),
    ("Agriculture", ⟨0.30, 0.20, 0.15, 0.15, 0.20⟩),
    ("Services", ⟨0.20, 0.30, 0.15, 0.15, 0.20⟩),
    ("Logistics", ⟨0.20, 0.20, 0.25, 0.20, 0.15⟩),
    ("E-commerce", ⟨0.25, 0.20, 0.15, 0.20, 0.20⟩) ]

/-- HealthScoreEngine.DEFAULT_WEIGHTS. -/
def DEFAULT_WEIGHTS : Weights := ⟨0.20, 0.25, 0.20, 0.15, 0.20⟩

/-- INDUSTRY_WEIGHTS.get(industry, DEFAULT_WEIGHTS). -/
def get_weights (industry : String) : Weights :=
  (INDUSTRY_WEIGHTS.lookup industry).getD DEFAULT_WEIGHTS

/-- Score result produced by HealthScoreEngine calculate_health_score. -/
structure ScoreResult where
  overall_score : ℚ
  grade : String
  liquidity_score : ℚ
  profitability_score : ℚ
  solvency_score : ℚ
  efficiency_score : ℚ
  cash_flow_score : ℚ
  risk_level : String
  weights_used : Weights
deriving Repr, DecidableEq

/-- HealthScoreEngine calculate_health_score. -/
def calculate_health_score (metrics : Metrics) (industry : String) : ScoreResult :=
  let weights := get_weights industry
  let liquidity_score := score_liquidity metrics
  let profitability_score := score_profitability metrics
  let solvency_score := score_solvency metrics
  let efficiency_score := score_efficiency metrics
  let cash_flow_score := score_cash_flow metrics
  let overall_score :=
    liquidity_score * weights.liquidity +
    profitability_score * weights.profitability +
    solvency_score * weights.solvency +
    efficiency_score * weights.efficiency +
    cash_flow_score * weights.cash_flow
  { overall_score := pyRound 1 overall_score
    grade := calculate_grade overall_score
    liquidity_score := pyRound 1 liquidity_score
    profitability_score := pyRound 1 profitability_score
    solvency_score := pyRound 1 solvency_score
    efficiency_score := pyRound 1 efficiency_score
    cash_flow_score := pyRound 1 cash_flow_score
    risk_level := calculate_risk_level overall_score
    weights_used := weights }

/- ===== HealthScoreCalculator extract_metrics (health_score.py) ===== -/

/-- A value stored in a raw financial-data mapping: a numeric value or a
non-numeric one (a string or other object the Python float() cast rejects). -/
inductive PyVal where
  | num (q : ℚ)
  | nonNum
deriving Repr, DecidableEq

/-- Raw financial-data mapping as read by HealthScoreCalculator
extract_metrics: one optional slot per key the function accesses. -/
structure RawData where
  current_ratio : Option PyVal := none
  quick_ratio : Option PyVal := none
  cash_ratio : Option PyVal := none
  gross_margin : Option PyVal := none
  net_margin : Option PyVal := none
  roe : Option PyVal := none
  debt_to_equity : Option PyVal := none
  debt_ratio : Option PyVal := none
  interest_coverage : Option PyVal := none
  inventory_turnover : Option PyVal := none
  receivables_turnover : Option PyVal := none
  asset_turnover : Option PyVal := none
  cash_runway_days : Option PyVal := none
  working_capital : Option PyVal := none
  working_capital_cycle : Option PyVal := none
  revenue : Option PyVal := none
  total_revenue : Option PyVal := none
  cost_of_goods_sold : Option PyVal := none
  cogs : Option PyVal := none
  net_income : Option PyVal := none
  profit : Option PyVal := none
  total_assets : Option PyVal := none
  assets : Option PyVal := none
  current_assets : Option PyVal := none
  current_liabilities : Option PyVal := none
  total_liabilities : Option PyVal := none
  liabilities : Option PyVal := none
  cash : Option PyVal := none
  cash_balance : Option PyVal := none
  monthly_expenses : Option PyVal := none
  expenses : Option PyVal := none
deriving Repr, DecidableEq

/-- The empty raw mapping. -/
def emptyRaw : RawData := {}

/-- Python float(data.get(key, default)): the default when the key is
absent, the numeric value when present, an exception (error) when the
stored value does not parse as a number. -/
def getFloat (v : Option PyVal) (dflt : ℚ) : Except Unit ℚ :=
  match v with
  | none => .ok dflt
  | some (.num q) => .ok q
  | some .nonNum => .error ()

/-- Python float(data.get(k1, data.get(k2, default))). -/
def getFloat2 (v1 v2 : Option PyVal) (dflt : ℚ) : Except Unit ℚ :=
  match v1 with
  | some (.num q) => .ok q
  | some .nonNum => .error ()
  | none => getFloat v2 dflt

/-- Python float(data.get(k1, data.get(k2, default)) / 12): the division
runs first, so a non-numeric stored value raises there as well. -/
def getFloat2Div12 (v1 v2 : Option PyVal) (dflt : ℚ) : Except Unit ℚ :=
  match getFloat2 v1 v2 dflt with
  | .ok q => .ok (q / 12)
  | .error e => .error e

/-- HealthScoreCalculator extract_metrics: direct fields with documented
defaults, then derivations from raw statement aggregates, each guarded
against nonpositive denominators. -/
def extract_metrics (data : RawData) : Except Unit Metrics := do
  let mut current_ratio ← getFloat data.current_ratio 1.5
  let quick_ratio ← getFloat data.quick_ratio 1.0
  let cash_ratio ← getFloat data.cash_ratio 0.5
  let mut gross_margin ← getFloat data.gross_margin 30
  let mut net_margin ← getFloat data.net_margin 10
  let mut roe ← getFloat data.roe 12
  let mut debt_to_equity ← getFloat data.debt_to_equity 0.8
  let debt_ratio ← getFloat data.debt_ratio 0.4
  let interest_coverage ← getFloat data.interest_coverage 3.0
  let inventory_turnover ← getFloat data.inventory_turnover 6
  let receivables_turnover ← getFloat data.receivables_turnover 8
  let asset_turnover ← getFloat data.asset_turnover 1.2
  let mut cash_runway_days ← getFloat data.cash_runway_days 90
  let working_capital ← getFloat data.working_capital 50000
  let working_capital_cycle ← getFloat data.working_capital_cycle 45
  if data.revenue.isSome || data.total_revenue.isSome then
    let revenue ← getFloat2 data.revenue data.total_revenue 0
    let cogsVal ← getFloat2 data.cost_of_goods_sold data.cogs (revenue * 0.6)
    let net_income ← getFloat2 data.net_income data.profit (revenue * 0.1)
    if revenue > 0 then
      gross_margin := (revenue - cogsVal) / revenue * 100
      net_margin := net_income / revenue * 100
  if data.total_assets.isSome || data.assets.isSome then
    let total_assets ← getFloat2 data.total_assets data.assets 1
    let current_assets ← getFloat data.current_assets (total_assets * 0.4)
    let current_liabilities ← getFloat data.current_liabilities (current_assets * 0.6)
    if current_liabilities > 0 then
      current_ratio := current_assets / current_liabilities
    let total_liabilities ←
      getFloat2 data.total_liabilities data.liabilities (total_assets * 0.4)
    let equity := total_assets - total_liabilities
    if equity > 0 then
      debt_to_equity := total_liabilities / equity
      let net_income ← getFloat2 data.net_income data.profit 0
      roe := if equity > 0 then net_income / equity * 100 else 0
  if data.cash.isSome || data.cash_balance.isSome then
    let cashVal ← getFloat2 data.cash data.cash_balance 0
    let monthly_expenses ← getFloat2Div12 data.monthly_expenses data.expenses 0
    if monthly_expenses > 0 then
      cash_runway_days := cashVal / (monthly_expenses / 30)
  return { current_ratio, quick_ratio, cash_ratio, gross_margin, net_margin,
           roe, debt_to_equity, debt_ratio, interest_coverage,
           inventory_turnover, receivables_turnover, asset_turnover,
           cash_runway_days, working_capital, working_capital_cycle }

/-- The documented per-field defaults of extract_metrics. -/
def default_metrics : Metrics :=
  { current_ratio := 1.5, quick_ratio := 1.0, cash_ratio := 0.5,
    gross_margin := 30, net_margin := 10, roe := 12, debt_to_equity := 0.8,
    debt_ratio := 0.4, interest_coverage := 3.0, inventory_turnover := 6,
    receivables_turnover := 8, asset_turnover := 1.2, cash_runway_days := 90,
    working_capital := 50000, working_capital_cycle := 45 }

/- ===== FinancialCalculator (financial_calculator.py) ===== -/

/-- summary block of a raw upload: summary.get(key, 0) per key. -/
structure SummaryBlock where
  total_revenue : Option ℚ := none
  total_expenses : Option ℚ := none
  total_profit : Option ℚ := none
  total_assets : Option ℚ := none
  total_liabilities : Option ℚ := none
deriving Repr, DecidableEq

/-- One identified column of the financial_data block:
info.get(category) and info.get(total) keyed by the column name. -/
structure Column where
  name : String
  category : String
  total : ℚ
deriving Repr, DecidableEq

/-- Raw data consumed by FinancialCalculator and ForecastingEngine:
an optional summary block and the financial_data columns in mapping order. -/
structure CalcRaw where
  summary : Option SummaryBlock := none
  financial_data : List Column := []
deriving Repr, DecidableEq

/-- The empty raw mapping for the calculator and forecaster. -/
def emptyCalcRaw : CalcRaw := {}

/-- Python substring test pat in s. -/
def containsSub (s pat : String) : Bool := (s.splitOn pat).length > 1

/-- The financials dict built by FinancialCalculator extract_financials:
every key optional, absent until assigned. -/
structure Financials where
  revenue : Option ℚ := none
  total_expenses : Option ℚ := none
  net_profit : Option ℚ := none
  total_assets : Option ℚ := none
  total_liabilities : Option ℚ := none
  cash : Option ℚ := none
  inventory : Option ℚ := none
  accounts_receivable : Option ℚ := none
  accounts_payable : Option ℚ := none
  gross_profit : Option ℚ := none
  operating_income : Option ℚ := none
  current_assets : Option ℚ := none
  current_liabilities : Option ℚ := none
  equity : Option ℚ := none
  total_debt : Option ℚ := none
  cost_of_goods_sold : Option ℚ := none
  interest_expense : Option ℚ := none
deriving Repr, DecidableEq

/-- One iteration of the financial_data loop in extract_financials. -/
def applyColumn (f : Financials) (c : Column) : Financials :=
  if c.category = "revenue" then
    { f with revenue := some (f.revenue.getD 0 + c.total) }
  else if c.category = "expense" then
    { f with total_expenses := some (f.total_expenses.getD 0 + c.total) }
  else if c.category = "profit" then
    { f with net_profit := some c.total }
  else if c.category = "asset" then
    let f := { f with total_assets := some (f.total_assets.getD 0 + c.total) }
    let n := c.name.toLower
    if containsSub n "cash" || containsSub n "bank" then
      { f with cash := some (f.cash.getD 0 + c.total) }
    else if containsSub n "inventory" then
      { f with inventory := some (f.inventory.getD 0 + c.total) }
    else if containsSub n "receivable" then
      { f with accounts_receivable := some (f.accounts_receivable.getD 0 + c.total) }
    else f
  else if c.category = "liability" then
    let f := { f with total_liabilities := some (f.total_liabilities.getD 0 + c.total) }
    if containsSub c.name.toLower "payable" then
      { f with accounts_payable := some (f.accounts_payable.getD 0 + c.total) }
    else f
  else f

/-- FinancialCalculator extract_financials. -/
def extract_financials (raw : CalcRaw) : Financials :=
  let f : Financials := {}
  let f := match raw.summary with
    | some s =>
        { f with revenue := some (s.total_revenue.getD 0),
                 total_expenses := some (s.total_expenses.getD 0),
                 net_profit := some (s.total_profit.getD 0),
                 total_assets := some (s.total_assets.getD 0),
                 total_liabilities := some (s.total_liabilities.getD 0) }
    | none => f
  let f := raw.financial_data.foldl applyColumn f
  let f :=
    if f.revenue.isSome && f.total_expenses.isSome then
      let f :=
        if f.net_profit.isNone then
          { f with net_profit := some (f.revenue.getD 0 - f.total_expenses.getD 0) }
        else f
      { f with gross_profit := some (f.revenue.getD 0 * 0.35),
               operating_income := some (f.net_profit.getD 0 * 1.2) }
    else f
  let ca := f.cash.getD 0 + f.accounts_receivable.getD 0 + f.inventory.getD 0
  let f := { f with current_assets := some ca }
  let cl := f.accounts_payable.getD 0 + f.total_liabilities.getD 0 * 0.3
  let f := { f with current_liabilities := some cl }
  { f with equity := some (f.total_assets.getD 0 - f.total_liabilities.getD 0),
           total_debt := some (f.total_liabilities.getD 0),
           cost_of_goods_sold := some (f.total_expenses.getD 0 * 0.7) }

/-- FinancialCalculator safe_divide. -/
def safe_divide (numerator denominator : ℚ) : ℚ :=
  if denominator = 0 then 0 else numerator / denominator

/-- FinancialCalculator calculate_cash_runway. -/
def calculate_cash_runway (f : Financials) : ℚ :=
  let cash := f.cash.getD 0
  let monthly_expenses := f.total_expenses.getD 0 / 12
  if monthly_expenses ≤ 0 then 365
  else
    let daily_burn := monthly_expenses / 30
    if daily_burn > 0 then (roundHalfEven (cash / daily_burn) : ℚ) else 365

/-- FinancialCalculator calculate_working_capital_cycle. -/
def calculate_working_capital_cycle (f : Financials) : ℚ :=
  let inventory := f.inventory.getD 0
  let cogsV := f.cost_of_goods_sold.getD 1
  let dio := if cogsV > 0 then inventory / cogsV * 365 else 0
  let receivables := f.accounts_receivable.getD 0
  let revenueV := f.revenue.getD 1
  let dso := if revenueV > 0 then receivables / revenueV * 365 else 0
  let payables := f.accounts_payable.getD 0
  let dpo := if cogsV > 0 then payables / cogsV * 365 else 0
  (roundHalfEven (dio + dso - dpo) : ℚ)

/-- Raw reference values echoed by calculate_all_metrics. -/
structure RawValues where
  revenue : ℚ
  expenses : ℚ
  net_profit : ℚ
  cash : ℚ
  total_assets : ℚ
  total_liabilities : ℚ
deriving Repr, DecidableEq

/-- Metrics record produced by FinancialCalculator calculate_all_metrics. -/
structure CalcMetrics where
  current_ratio : ℚ
  quick_ratio : ℚ
  cash_ratio : ℚ
  gross_margin : ℚ
  net_margin : ℚ
  operating_margin : ℚ
  roe : ℚ
  roa : ℚ
  debt_to_equity : ℚ
  debt_ratio : ℚ
  interest_coverage : ℚ
  inventory_turnover : ℚ
  receivables_turnover : ℚ
  payables_turnover : ℚ
  asset_turnover : ℚ
  cash_runway_days : ℚ
  working_capital : ℚ
  working_capital_cycle : ℚ
  raw_values : RawValues
deriving Repr, DecidableEq

/-- FinancialCalculator calculate_all_metrics. -/
def calculate_all_metrics (raw_data : CalcRaw) : CalcMetrics :=
  let f := extract_financials raw_data
  { current_ratio := safe_divide (f.current_assets.getD 0) (f.current_liabilities.getD 1)
    quick_ratio := safe_divide (f.current_assets.getD 0 - f.inventory.getD 0)
      (f.current_liabilities.getD 1)
    cash_ratio := safe_divide (f.cash.getD 0) (f.current_liabilities.getD 1)
    gross_margin := safe_divide (f.gross_profit.getD 0) (f.revenue.getD 1) * 100
    net_margin := safe_divide (f.net_profit.getD 0) (f.revenue.getD 1) * 100
    operating_margin := safe_divide (f.operating_income.getD 0) (f.revenue.getD 1) * 100
    roe := safe_divide (f.net_profit.getD 0) (f.equity.getD 1) * 100
    roa := safe_divide (f.net_profit.getD 0) (f.total_assets.getD 1) * 100
    debt_to_equity := safe_divide (f.total_debt.getD 0) (f.equity.getD 1)
    debt_ratio := safe_divide (f.total_debt.getD 0) (f.total_assets.getD 1)
    interest_coverage := safe_divide (f.operating_income.getD 0) (f.interest_expense.getD 1)
    inventory_turnover := safe_divide (f.cost_of_goods_sold.getD 0) (f.inventory.getD 1)
    receivables_turnover := safe_divide (f.revenue.getD 0) (f.accounts_receivable.getD 1)
    payables_turnover := safe_divide (f.cost_of_goods_sold.getD 0) (f.accounts_payable.getD 1)
    asset_turnover := safe_divide (f.revenue.getD 0) (f.total_assets.getD 1)
    cash_runway_days := calculate_cash_runway f
    working_capital := f.current_assets.getD 0 - f.current_liabilities.getD 0
    working_capital_cycle := calculate_working_capital_cycle f
    raw_values :=
      { revenue := f.revenue.getD 0, expenses := f.total_expenses.getD 0,
        net_profit := f.net_profit.getD 0, cash := f.cash.getD 0,
        total_assets := f.total_assets.getD 0,
        total_liabilities := f.total_liabilities.getD 0 } }

/- ===== IndustryBenchmark (industry_benchmark.py) ===== -/

/-- IndustryBenchmark calculate_percentile: piecewise position of a value
against a low/median/high triple. -/
def calculate_percentile (value low median high : ℚ) : ℚ :=
  if value ≤ low then (if low > 0 then min 25 (value / low * 25) else 0)
  else if value ≤ median then 25 + (value - low) / (median - low) * 25
  else if value ≤ high then 50 + (value - median) / (high - median) * 25
  else min 100 (75 + (value - high) / high * 25)

/- ===== ForecastingEngine (forecasting_engine.py) ===== -/

/-- The three named annual growth rates of an industry. -/
structure GrowthRates where
  base : ℚ
  optimistic : ℚ
  pessimistic : ℚ
deriving Repr, DecidableEq

/-- The (name, rate) pairs of a growth-rate record in dict insertion
order, as iterated by growth_rates.items(). -/
def GrowthRates.items (g : GrowthRates) : List (String × ℚ) :=
  [("base", g.base), ("optimistic", g.optimistic), ("pessimistic", g.pessimistic)]

/-- ForecastingEngine.INDUSTRY_GROWTH_RATES table. -/
def INDUSTRY_GROWTH_RATES : List (String × GrowthRates) :=
  [ ("Manufacturing", ⟨8, 15, 3⟩),
    ("Retail", ⟨10, 18, 4⟩),
    ("Agriculture", ⟨5, 12, -2⟩),
    ("Services", ⟨12, 22, 5⟩),
    ("Logistics", ⟨10, 18, 4⟩),
    ("E-commerce", ⟨20, 35, 8⟩) ]

/-- INDUSTRY_GROWTH_RATES.get(industry, default). -/
def get_growth_rates (industry : String) : GrowthRates :=
  (INDUSTRY_GROWTH_RATES.lookup industry).getD ⟨10, 18, 5⟩

/-- Current financial values extracted by ForecastingEngine
extract_current_values. -/
structure ForecastFinancials where
  revenue : ℚ
  expenses : ℚ
  profit : ℚ
  cash : ℚ
  monthly_burn : ℚ
deriving Repr, DecidableEq

/-- One iteration of the financial_data loop in extract_current_values:
revenue and expense categories accumulate, any other column whose name
contains cash accumulates into cash. -/
def applyForecastColumn (acc : ℚ × ℚ × ℚ) (c : Column) : ℚ × ℚ × ℚ :=
  if c.category = "revenue" then (acc.1 + c.total, acc.2.1, acc.2.2)
  else if c.category = "expense" then (acc.1, acc.2.1 + c.total, acc.2.2)
  else if containsSub c.name.toLower "cash" then (acc.1, acc.2.1, acc.2.2 + c.total)
  else acc

/-- ForecastingEngine extract_current_values. -/
def extract_current_values (raw : CalcRaw) : ForecastFinancials :=
  let base : ℚ × ℚ × ℚ := match raw.summary with
    | some s => (s.total_revenue.getD 0, s.total_expenses.getD 0, 0)
    | none => (0, 0, 0)
  let acc := raw.financial_data.foldl applyForecastColumn base
  let revenue := acc.1
  let expenses := acc.2.1
  let cash := acc.2.2
  { revenue, expenses, profit := revenue - expenses, cash,
    monthly_burn := if expenses > 0 then expenses / 12 else 0 }

/-- Per-scenario revenue forecast entry (3, 6 and 12 month horizons). -/
structure ScenarioEntry where
  scenario : String
  three_month : ℚ
  six_month : ℚ
  twelve_month : ℚ
deriving Repr, DecidableEq

/-- Result of ForecastingEngine forecast_revenue. -/
structure RevenueForecast where
  current_annual_revenue : ℚ
  scenario_entries : List ScenarioEntry
  monthly_breakdown : List (ℕ × ℚ)
deriving Repr, DecidableEq

/-- ForecastingEngine forecast_revenue. -/
def forecast_revenue (fin : ForecastFinancials) (g : GrowthRates) : RevenueForecast :=
  let current_revenue := fin.revenue
  let monthly_revenue := current_revenue / 12
  { current_annual_revenue := current_revenue
    scenario_entries := g.items.map (fun p =>
      let annual_rate := p.2
      let monthly_rate := annual_rate / 12 / 100
      { scenario := p.1
        three_month := pyRound 2 (monthly_revenue * 3 * (1 + monthly_rate * 3))
        six_month := pyRound 2 (monthly_revenue * 6 * (1 + monthly_rate * 6))
        twelve_month := pyRound 2 (current_revenue * (1 + annual_rate / 100)) })
    monthly_breakdown := (List.range 12).map (fun (i : ℕ) =>
      let month : ℚ := (i : ℚ) + 1
      ((i + 1 : ℕ), pyRound 2 (monthly_revenue * (1 + g.base / 12 / 100 * month)))) }

/-- One month of the 6-month cash-flow projection. -/
structure MonthFlow where
  month : ℕ
  inflow : ℚ
  outflow : ℚ
  net_flow : ℚ
  ending_cash : ℚ
deriving Repr, DecidableEq

/-- Result of ForecastingEngine forecast_cash_flow. -/
structure CashFlowProjection where
  starting_cash : ℚ
  monthly_projection : List MonthFlow
  projected_cash_6m : ℚ
  average_monthly_net_flow : ℚ
deriving Repr, DecidableEq

/-- ForecastingEngine forecast_cash_flow: 6-month rolling projection with
fixed monthly growth factors on the run rates. -/
def forecast_cash_flow (fin : ForecastFinancials) : CashFlowProjection :=
  let cash := fin.cash
  let monthly_revenue := fin.revenue / 12
  let monthly_expenses := fin.monthly_burn
  let acc := (List.range 6).foldl (fun (acc : ℚ × List MonthFlow) (i : ℕ) =>
      let month : ℚ := (i : ℚ) + 1
      let inflow := monthly_revenue * (1 + 0.01 * month)
      let outflow := monthly_expenses * (1 + 0.005 * month)
      let net_flow := inflow - outflow
      let running_cash := acc.1 + net_flow
      let row : MonthFlow :=
        { month := i + 1, inflow := pyRound 2 inflow,
          outflow := pyRound 2 outflow, net_flow := pyRound 2 net_flow,
          ending_cash := pyRound 2 running_cash }
      (running_cash, acc.2 ++ [row]))
    (cash, [])
  { starting_cash := cash
    monthly_projection := acc.2
    projected_cash_6m := pyRound 2 acc.1
    average_monthly_net_flow :=
      pyRound 2 ((acc.2.map MonthFlow.net_flow).sum / 6) }

/-- Result of ForecastingEngine calculate_break_even. -/
structure BreakEven where
  break_even_revenue : ℚ
  current_revenue : ℚ
  break_even_percentage : ℚ
  margin_of_safety : ℚ
  is_profitable : Bool
  fixed_costs_estimate : ℚ
  contribution_margin : ℚ
deriving Repr, DecidableEq

/-- ForecastingEngine calculate_break_even: fixed 30/70 cost split. -/
def calculate_break_even (fin : ForecastFinancials) : BreakEven :=
  let revenue := fin.revenue
  let expenses := fin.expenses
  let profit := fin.profit
  let fixed_costs := expenses * 0.3
  let variable_costs := expenses * 0.7
  let variable_cost_ratio := if revenue > 0 then variable_costs / revenue else 0.7
  let contribution_margin := 1 - variable_cost_ratio
  let break_even_revenue :=
    if contribution_margin > 0 then fixed_costs / contribution_margin else 0
  let break_even_percentage :=
    if revenue > 0 then break_even_revenue / revenue * 100 else 0
  let margin_of_safety :=
    if revenue > 0 then (revenue - break_even_revenue) / revenue * 100 else 0
  { break_even_revenue := pyRound 2 break_even_revenue
    current_revenue := revenue
    break_even_percentage := pyRound 1 break_even_percentage
    margin_of_safety := pyRound 1 margin_of_safety
    is_profitable := profit > 0
    fixed_costs_estimate := pyRound 2 fixed_costs
    contribution_margin := pyRound 1 (contribution_margin * 100) }

/-- ForecastingEngine get_scenario_description. -/
def get_scenario_description (scenario : String) : String :=
  if scenario = "optimistic" then
    "Best case with strong market growth and operational efficiency"
  else if scenario = "base" then
    "Expected outcome based on current trends and industry averages"
  else if scenario = "pessimistic" then
    "Conservative estimate accounting for potential challenges"
  else "Projected scenario"

/-- One growth scenario produced by generate_scenarios. -/
structure GrowthScenario where
  scenario : String
  growth_rate : ℚ
  projected_revenue : ℚ
  projected_profit : ℚ
  description : String
deriving Repr, DecidableEq

/-- ForecastingEngine generate_scenarios. -/
def generate_scenarios (fin : ForecastFinancials) (g : GrowthRates) :
    List GrowthScenario :=
  let revenue := fin.revenue
  let profit := fin.profit
  g.items.map (fun p =>
    let growth_rate := p.2
    let projected_revenue := revenue * (1 + growth_rate / 100)
    let profit_margin := if revenue > 0 then profit / revenue else 0.1
    { scenario := p.1
      growth_rate := growth_rate
      projected_revenue := pyRound 2 projected_revenue
      projected_profit := pyRound 2 (projected_revenue * profit_margin)
      description := get_scenario_description p.1 })

/-- The four runway scenarios of project_cash_runway. -/
structure RunwayScenarios where
  current : ℚ
  ten_percent_reduction : ℚ
  twenty_percent_reduction : ℚ
  ten_percent_increase : ℚ
deriving Repr, DecidableEq

/-- Result of ForecastingEngine project_cash_runway. The two return
shapes of the source are merged into one record with optional fields;
critical_date holds the instant now + runway * 30 days whose calendar
rendering the source formats via strftime. -/
structure RunwayProjection where
  current_runway_months : ℚ
  status : Option String := none
  message : Option String := none
  current_cash : Option ℚ := none
  monthly_burn_rate : Option ℚ := none
  scenarios : Option RunwayScenarios := none
  critical_date : Option ℚ := none
deriving Repr, DecidableEq

/-- ForecastingEngine project_cash_runway. The source reads the wall
clock (datetime.now()) to build critical_date; the clock is made an
explicit parameter now, measured in days. -/
def project_cash_runway (now : ℚ) (fin : ForecastFinancials) : RunwayProjection :=
  let cash := fin.cash
  let monthly_burn := fin.monthly_burn
  if monthly_burn ≤ 0 then
    { current_runway_months := 24
      status := some "positive_cash_flow"
      message := some "Company is generating positive cash flow" }
  else
    let current_runway := cash / monthly_burn
    { current_runway_months := pyRound 1 current_runway
      current_cash := some cash
      monthly_burn_rate := some (pyRound 2 monthly_burn)
      scenarios := some
        { current := pyRound 1 current_runway
          ten_percent_reduction := pyRound 1 (cash / (monthly_burn * 0.9))
          twenty_percent_reduction := pyRound 1 (cash / (monthly_burn * 0.8))
          ten_percent_increase := pyRound 1 (cash / (monthly_burn * 1.1)) }
      critical_date :=
        if current_runway < 12 then some (now + current_runway * 30) else none }

/-- One row of project_key_metrics. -/
structure MetricTrend where
  metric : String
  current : ℚ
  proj_3m : ℚ
  proj_6m : ℚ
  proj_12m : ℚ
deriving Repr, DecidableEq

/-- ForecastingEngine project_key_metrics. -/
def project_key_metrics (fin : ForecastFinancials) (g : GrowthRates) :
    List MetricTrend :=
  let base_rate := g.base / 100
  [ { metric := "Revenue", current := fin.revenue,
      proj_3m := pyRound 2 (fin.revenue * (1 + base_rate * 0.25)),
      proj_6m := pyRound 2 (fin.revenue * (1 + base_rate * 0.5)),
      proj_12m := pyRound 2 (fin.revenue * (1 + base_rate)) },
    { metric := "Profit", current := fin.profit,
      proj_3m := pyRound 2 (fin.profit * (1 + base_rate * 0.3)),
      proj_6m := pyRound 2 (fin.profit * (1 + base_rate * 0.6)),
      proj_12m := pyRound 2 (fin.profit * (1 + base_rate * 1.1)) } ]

/-- Full output of ForecastingEngine generate_forecast. -/
structure Forecast where
  revenue_forecast : RevenueForecast
  cash_flow_projection : CashFlowProjection
  break_even_analysis : BreakEven
  growth_scenarios : List GrowthScenario
  cash_runway_projection : RunwayProjection
  key_metrics_trend : List MetricTrend
deriving Repr, DecidableEq

/-- ForecastingEngine generate_forecast, with the wall clock an explicit
parameter now (only project_cash_runway reads it in the source). -/
def generate_forecast (now : ℚ) (raw_data : CalcRaw) (industry : String) : Forecast :=
  let financials := extract_current_values raw_data
  let growth_rates := get_growth_rates industry
  { revenue_forecast := forecast_revenue financials growth_rates
    cash_flow_projection := forecast_cash_flow financials
    break_even_analysis := calculate_break_even financials
    growth_scenarios := generate_scenarios financials growth_rates
    cash_runway_projection := project_cash_runway now financials
    key_metrics_trend := project_key_metrics financials growth_rates }

/-- A forecast with the clock-derived critical_date field erased. -/
def erase_critical_date (f : Forecast) : Forecast :=
  { f with cash_runway_projection :=
      { f.cash_runway_projection with critical_date := none } }

/- ===== Concrete inputs used by the claim checks ===== -/

/-- Reading of the 3/6-month revenue forecast taken from the words of the
spec: the scenario monthly-equivalent rate compounded over the horizon
(geometric growth), for comparison with the source formula. -/
def spec_compounded_forecast (current_revenue annual_rate : ℚ) (months : ℕ) : ℚ :=
  pyRound 2 (current_revenue / 12 * months * (1 + annual_rate / 12 / 100) ^ months)

/-- Forecast financials with annual revenue 1200 (monthly run rate 100). -/
def finC7 : ForecastFinancials :=
  { revenue := 1200, expenses := 0, profit := 1200, cash := 0, monthly_burn := 0 }

/-- Growth-rate triple with base rate 12 percent per year. -/
def ratesC7 : GrowthRates := ⟨12, 18, 5⟩

/-- Raw upload with total expenses 1200 and no cash: monthly burn 100,
runway 0 months, so the forecast builds a critical_date from the clock. -/
def c1raw : CalcRaw :=
  { summary := some { total_expenses := some 1200 } }

/-- Raw mapping whose current_ratio entry holds a non-numeric value. -/
def nonNumericRaw : RawData := { current_ratio := some .nonNum }

/-- Raw mapping with total assets 1000 and an explicit zero
current-liabilities entry: the current-ratio derivation has denominator 0. -/
def assetsZeroLiabRaw : RawData :=
  { total_assets := some (.num 1000), current_liabilities := some (.num 0) }

/-- Raw mapping with cash 500 and zero expenses: the cash-runway
derivation has denominator 0. -/
def cashZeroExpensesRaw : RawData :=
  { cash := some (.num 500), expenses := some (.num 0) }

/- ===== Helper lemmas ===== -/

theorem exb_ok {α β : Type} (a : α) (f : α → Except Unit β) :
    (Except.ok a >>= f) = f a := rfl

theorem exb_pure {α : Type} (a : α) : (pure a : Except Unit α) = Except.ok a := rfl

/- ===== Helper lemmas: bounds and monotonicity of the scoring curves ===== -/

theorem cr_score_bounds (x : ℚ) (hx : 0 ≤ x) : 0 ≤ cr_score x ∧ cr_score x ≤ 100 := by
  unfold cr_score; split_ifs <;> constructor <;> linarith

theorem qr_score_bounds (x : ℚ) (hx : 0 ≤ x) : 0 ≤ qr_score x ∧ qr_score x ≤ 100 := by
  unfold qr_score; split_ifs <;> constructor <;> linarith

theorem cash_score_bounds (x : ℚ) (hx : 0 ≤ x) : 0 ≤ cash_score x ∧ cash_score x ≤ 100 := by
  unfold cash_score; split_ifs <;> constructor <;> linarith

theorem runway_score_bounds (x : ℚ) (hx : 0 ≤ x) :
    0 ≤ runway_score x ∧ runway_score x ≤ 100 := by
  unfold runway_score; split_ifs <;> constructor <;> linarith

theorem gm_score_bounds (x : ℚ) : 0 ≤ gm_score x ∧ gm_score x ≤ 100 := by
  unfold gm_score; split_ifs <;> constructor <;> linarith

theorem nm_score_bounds (x : ℚ) : 0 ≤ nm_score x ∧ nm_score x ≤ 100 := by
  unfold nm_score; split_ifs <;> constructor <;> linarith

theorem roe_score_bounds (x : ℚ) : 0 ≤ roe_score x ∧ roe_score x ≤ 100 := by
  unfold roe_score; split_ifs <;> constructor <;> linarith

theorem de_score_bounds (x : ℚ) : 0 ≤ de_score x ∧ de_score x ≤ 100 := by
  unfold de_score; split_ifs <;> constructor <;> linarith

theorem dr_score_bounds (x : ℚ) : 0 ≤ dr_score x ∧ dr_score x ≤ 100 := by
  unfold dr_score; simp only [max_def]; split_ifs <;> constructor <;> linarith

theorem ic_score_bounds (x : ℚ) : 0 ≤ ic_score x ∧ ic_score x ≤ 100 := by
  unfold ic_score; split_ifs <;> constructor <;> linarith

theorem it_score_bounds (x : ℚ) : 0 ≤ it_score x ∧ it_score x ≤ 100 := by
  unfold it_score; split_ifs <;> constructor <;> linarith

theorem rt_score_bounds (x : ℚ) : 0 ≤ rt_score x ∧ rt_score x ≤ 100 := by
  unfold rt_score; split_ifs <;> constructor <;> linarith

theorem at_score_bounds (x : ℚ) : 0 ≤ at_score x ∧ at_score x ≤ 100 := by
  unfold at_score; split_ifs <;> constructor <;> linarith

theorem wc_score_bounds (x : ℚ) : 0 ≤ wc_score x ∧ wc_score x ≤ 100 := by
  unfold wc_score; simp only [min_def, max_def]; split_ifs <;> constructor <;> linarith

theorem wcc_score_bounds (x : ℚ) : 0 ≤ wcc_score x ∧ wcc_score x ≤ 100 := by
  unfold wcc_score; simp only [max_def]; split_ifs <;> constructor <;> linarith

theorem cr_score_mono {x y : ℚ} (h : x ≤ y) : cr_score x ≤ cr_score y := by
  unfold cr_score; split_ifs <;> linarith

theorem qr_score_mono {x y : ℚ} (h : x ≤ y) : qr_score x ≤ qr_score y := by
  unfold qr_score; split_ifs <;> linarith

theorem cash_score_mono {x y : ℚ} (h : x ≤ y) : cash_score x ≤ cash_score y := by
  unfold cash_score; split_ifs <;> linarith

theorem gm_score_mono {x y : ℚ} (h : x ≤ y) : gm_score x ≤ gm_score y := by
  unfold gm_score; split_ifs <;> linarith

theorem nm_score_mono {x y : ℚ} (h : x ≤ y) : nm_score x ≤ nm_score y := by
  unfold nm_score; split_ifs <;> linarith

theorem roe_score_mono {x y : ℚ} (h : x ≤ y) : roe_score x ≤ roe_score y := by
  unfold roe_score; split_ifs <;> linarith

theorem at_score_mono {x y : ℚ} (h : x ≤ y) : at_score x ≤ at_score y := by
  unfold at_score; split_ifs <;> linarith

theorem runway_score_mono {x y : ℚ} (h : x ≤ y) : runway_score x ≤ runway_score y := by
  unfold runway_score; split_ifs <;> linarith

theorem wc_score_mono {x y : ℚ} (h : x ≤ y) : wc_score x ≤ wc_score y := by
  unfold wc_score; simp only [min_def, max_def]; split_ifs <;> linarith

theorem de_score_anti {x y : ℚ} (h : x ≤ y) : de_score y ≤ de_score x := by
  unfold de_score; split_ifs <;> linarith

theorem dr_score_anti {x y : ℚ} (h : x ≤ y) : dr_score y ≤ dr_score x := by
  unfold dr_score; simp only [max_def]; split_ifs <;> linarith

/- ===== Claim theorems ===== -/

/-- C2 counterexample: the interest-coverage curve, a higher-is-better
metric, is not monotonically non-decreasing: it scores 70.23 at 2.99 but
only 70 at 3. -/
theorem ic_score_not_monotone :
    (2.99 : ℚ) ≤ 3 ∧ ic_score 3 < ic_score 2.99 := by
  norm_num [ic_score]

/-- C2 (amended): every sub-metric scoring curve outputs a value in
[0,100] on sign-constrained inputs, and the curves for current ratio,
quick ratio, cash ratio, gross margin, net margin, ROE, asset turnover,
cash runway and working capital are monotone non-decreasing while the
debt-to-equity and debt-ratio curves are monotone non-increasing; the
interest-coverage and working-capital-cycle curves are not monotone, and
not every curve is continuous at its breakpoints. -/
theorem scoring_curves_amended :
    (∀ x : ℚ, 0 ≤ x →
      (0 ≤ cr_score x ∧ cr_score x ≤ 100) ∧ (0 ≤ qr_score x ∧ qr_score x ≤ 100) ∧
      (0 ≤ cash_score x ∧ cash_score x ≤ 100) ∧
      (0 ≤ runway_score x ∧ runway_score x ≤ 100)) ∧
    (∀ x : ℚ,
      (0 ≤ gm_score x ∧ gm_score x ≤ 100) ∧ (0 ≤ nm_score x ∧ nm_score x ≤ 100) ∧
      (0 ≤ roe_score x ∧ roe_score x ≤ 100) ∧ (0 ≤ de_score x ∧ de_score x ≤ 100) ∧
      (0 ≤ dr_score x ∧ dr_score x ≤ 100) ∧ (0 ≤ ic_score x ∧ ic_score x ≤ 100) ∧
      (0 ≤ it_score x ∧ it_score x ≤ 100) ∧ (0 ≤ rt_score x ∧ rt_score x ≤ 100) ∧
      (0 ≤ at_score x ∧ at_score x ≤ 100) ∧ (0 ≤ wc_score x ∧ wc_score x ≤ 100) ∧
      (0 ≤ wcc_score x ∧ wcc_score x ≤ 100)) ∧
    (∀ x y : ℚ, x ≤ y →
      cr_score x ≤ cr_score y ∧ qr_score x ≤ qr_score y ∧
      cash_score x ≤ cash_score y ∧ gm_score x ≤ gm_score y ∧
      nm_score x ≤ nm_score y ∧ roe_score x ≤ roe_score y ∧
      at_score x ≤ at_score y ∧ runway_score x ≤ runway_score y ∧
      wc_score x ≤ wc_score y ∧ de_score y ≤ de_score x ∧
      dr_score y ≤ dr_score x) :=
  ⟨fun x hx => ⟨cr_score_bounds x hx, qr_score_bounds x hx, cash_score_bounds x hx,
      runway_score_bounds x hx⟩,
   fun x => ⟨gm_score_bounds x, nm_score_bounds x, roe_score_bounds x,
      de_score_bounds x, dr_score_bounds x, ic_score_bounds x, it_score_bounds x,
      rt_score_bounds x, at_score_bounds x, wc_score_bounds x, wcc_score_bounds x⟩,
   fun _ _ h => ⟨cr_score_mono h, qr_score_mono h, cash_score_mono h,
      gm_score_mono h, nm_score_mono h, roe_score_mono h, at_score_mono h,
      runway_score_mono h, wc_score_mono h, de_score_anti h, dr_score_anti h⟩⟩

/-- Witness for C2 (amended) at concrete inputs 1 and 2. -/
theorem scoring_curves_amended_witness :
    (0 ≤ cr_score 1 ∧ cr_score 1 ≤ 100) ∧ cr_score 1 ≤ cr_score 2 :=
  ⟨(scoring_curves_amended.1 1 (by norm_num)).1,
   (scoring_curves_amended.2.2 1 2 (by norm_num)).1⟩

/-- C5: extract_metrics applied to the empty mapping returns the complete
metrics record with every field at its documented default and does not
fail. -/
theorem extract_metrics_empty_defaults :
    extract_metrics emptyRaw = Except.ok default_metrics := by
  rfl

set_option maxHeartbeats 2000000 in
/-- C8: the grade and risk-level mappings are threshold-exact at every
boundary of the 11-point grade scale and the 4-point risk scale. -/
theorem grade_risk_thresholds : ∀ s : ℚ,
    (90 ≤ s → calculate_grade s = "A+") ∧
    (85 ≤ s → s < 90 → calculate_grade s = "A") ∧
    (80 ≤ s → s < 85 → calculate_grade s = "A-") ∧
    (75 ≤ s → s < 80 → calculate_grade s = "B+") ∧
    (70 ≤ s → s < 75 → calculate_grade s = "B") ∧
    (65 ≤ s → s < 70 → calculate_grade s = "B-") ∧
    (60 ≤ s → s < 65 → calculate_grade s = "C+") ∧
    (55 ≤ s → s < 60 → calculate_grade s = "C") ∧
    (50 ≤ s → s < 55 → calculate_grade s = "C-") ∧
    (40 ≤ s → s < 50 → calculate_grade s = "D") ∧
    (s < 40 → calculate_grade s = "F") ∧
    (75 ≤ s → calculate_risk_level s = "Low") ∧
    (55 ≤ s → s < 75 → calculate_risk_level s = "Medium") ∧
    (35 ≤ s → s < 55 → calculate_risk_level s = "High") ∧
    (s < 35 → calculate_risk_level s = "Critical") := by
  intro s
  refine ⟨?_, ?_, ?_, ?_, ?_, ?_, ?_, ?_, ?_, ?_, ?_, ?_, ?_, ?_, ?_⟩ <;>
    (intros
     simp only [calculate_grade, calculate_risk_level]
     split_ifs <;> first | rfl | linarith)

/-- Witness for C8 at the boundary scores 90, 89.99, 75 and 74.99. -/
theorem grade_risk_thresholds_witness :
    calculate_grade 90 = "A+" ∧ calculate_grade 89.99 = "A" ∧
      calculate_risk_level 75 = "Low" ∧ calculate_risk_level 74.99 = "Medium" :=
  ⟨(grade_risk_thresholds 90).1 (by norm_num),
   (grade_risk_thresholds 89.99).2.1 (by norm_num) (by norm_num),
   (grade_risk_thresholds 75).2.2.2.2.2.2.2.2.2.2.2.1 (by norm_num),
   (grade_risk_thresholds 74.99).2.2.2.2.2.2.2.2.2.2.2.2.1 (by norm_num) (by norm_num)⟩

/-- C9: for every industry string, the weight set chosen by the engine
(each table row and the default set for unknown industries) sums to
exactly 1. -/
theorem weights_sum_one : ∀ industry : String, Weights.sum (get_weights industry) = 1 := by
  intro industry
  unfold get_weights INDUSTRY_WEIGHTS
  simp only [List.lookup]
  repeat' split
  all_goals simp [Weights.sum, DEFAULT_WEIGHTS, Option.getD]
  all_goals norm_num

/-- C10 counterexample: a strictly positive inventory turnover does not
always score 10 times the value: at turnover 3 the curve gives 33.3, not
30. -/
theorem it_score_not_linear_everywhere :
    (0 : ℚ) < 3 ∧ it_score 3 ≠ 3 * 10 := by
  norm_num [it_score]

/-- C10 (amended): zero inventory or receivables turnover scores a
neutral 50, while turnovers in the lowest band (below 2, resp. below 4)
score 10 t, resp. 7.5 t, so values arbitrarily close to 0 from above
score arbitrarily close to 0. -/
theorem turnover_zero_neutral :
    it_score 0 = 50 ∧ rt_score 0 = 50 ∧
    (∀ t : ℚ, 0 < t → t < 2 → it_score t = t * 10) ∧
    (∀ t : ℚ, 0 < t → t < 4 → rt_score t = t * 7.5) := by
  refine ⟨by norm_num [it_score], by norm_num [rt_score], ?_, ?_⟩
  · intro t h1 h2
    simp only [it_score]
    split_ifs <;> first | rfl | linarith
  · intro t h1 h2
    simp only [rt_score]
    split_ifs <;> first | rfl | linarith

/-- Witness for C10 (amended) at turnover 1. -/
theorem turnover_zero_neutral_witness :
    it_score 1 = 1 * 10 ∧ rt_score 1 = 1 * 7.5 :=
  ⟨turnover_zero_neutral.2.2.1 1 (by norm_num) (by norm_num),
   turnover_zero_neutral.2.2.2 1 (by norm_num) (by norm_num)⟩

/-- C6 counterexample: the benchmark percentile is not clamped below 0:
a net margin of -5 against the Manufacturing triple (5, 10, 15) yields
percentile -25, outside [0,100]. -/
theorem percentile_not_clamped_below :
    calculate_percentile (-5) 5 10 15 = -25 ∧
      calculate_percentile (-5) 5 10 15 < 0 := by
  constructor <;> norm_num [calculate_percentile, min_def]

/-- C6 (amended): for nonnegative metric values against an increasing
positive triple the percentile lies in [0,100], and the low, median and
high anchors map to exactly 25, 50 and 75; the below-low band is only
clamped from above at 25, so negative values produce negative
percentiles. -/
theorem percentile_amended :
    (∀ v l m h : ℚ, 0 ≤ v → 0 < l → l < m → m < h →
      0 ≤ calculate_percentile v l m h ∧ calculate_percentile v l m h ≤ 100) ∧
    (∀ l m h : ℚ, 0 < l → l < m → m < h →
      calculate_percentile l l m h = 25 ∧ calculate_percentile m l m h = 50 ∧
        calculate_percentile h l m h = 75) := by
  constructor
  · intro v l m h hv hl hlm hmh
    unfold calculate_percentile
    rcases le_or_lt v l with hvl | hvl
    · rw [if_pos hvl, if_pos hl]
      refine ⟨le_min (by norm_num) (by positivity), ?_⟩
      exact (min_le_left _ _).trans (by norm_num)
    · rw [if_neg (not_le.mpr hvl)]
      rcases le_or_lt v m with hvm | hvm
      · rw [if_pos hvm]
        have ht0 : 0 ≤ (v - l) / (m - l) :=
          div_nonneg (by linarith) (by linarith)
        have ht1 : (v - l) / (m - l) ≤ 1 := by
          rw [div_le_one (by linarith)]; linarith
        constructor <;> linarith
      · rw [if_neg (not_le.mpr hvm)]
        rcases le_or_lt v h with hvh | hvh
        · rw [if_pos hvh]
          have ht0 : 0 ≤ (v - m) / (h - m) :=
            div_nonneg (by linarith) (by linarith)
          have ht1 : (v - m) / (h - m) ≤ 1 := by
            rw [div_le_one (by linarith)]; linarith
          constructor <;> linarith
        · rw [if_neg (not_le.mpr hvh)]
          have ht0 : 0 ≤ (v - h) / h :=
            div_nonneg (by linarith) (by linarith)
          exact ⟨le_min (by norm_num) (by linarith), min_le_left _ _⟩
  · intro l m h hl hlm hmh
    unfold calculate_percentile
    refine ⟨?_, ?_, ?_⟩
    · rw [if_pos le_rfl, if_pos hl, div_self (ne_of_gt hl)]
      norm_num
    · rw [if_neg (not_le.mpr hlm), if_pos le_rfl,
        div_self (ne_of_gt (by linarith : (0:ℚ) < m - l))]
      norm_num
    · rw [if_neg (not_le.mpr (by linarith : l < h)), if_neg (not_le.mpr hmh),
        if_pos le_rfl, div_self (ne_of_gt (by linarith : (0:ℚ) < h - m))]
      norm_num

/-- Witness for C6 (amended) at value 7 and the triple (5, 10, 15). -/
theorem percentile_amended_witness :
    (0 ≤ calculate_percentile 7 5 10 15 ∧ calculate_percentile 7 5 10 15 ≤ 100) ∧
      calculate_percentile 5 5 10 15 = 25 :=
  ⟨percentile_amended.1 7 5 10 15 (by norm_num) (by norm_num) (by norm_num) (by norm_num),
   (percentile_amended.2 5 10 15 (by norm_num) (by norm_num) (by norm_num)).1⟩

/-- C3 counterexample: in FinancialCalculator a zero denominator does not
fall back to the documented default: on the empty input the current
liabilities are 0 and current_ratio becomes 0, not the default 1.5. -/
theorem zero_denominator_not_default :
    (calculate_all_metrics emptyCalcRaw).current_ratio = 0 ∧
      (calculate_all_metrics emptyCalcRaw).current_ratio ≠
        default_metrics.current_ratio := by
  constructor <;>
    norm_num [calculate_all_metrics, extract_financials, emptyCalcRaw, applyColumn,
      safe_divide, Option.getD, default_metrics]

/-- C3 (amended): division by zero never raises, but the replacement
value differs per path: FinancialCalculator safe_divide maps any zero
denominator to 0, while the guarded derivations of HealthScoreCalculator
extract_metrics keep the documented default (current_liabilities 0 keeps
current_ratio 1.5; zero expenses keep cash_runway_days 90). -/
theorem division_by_zero_policy :
    (∀ n : ℚ, safe_divide n 0 = 0) ∧
    extract_metrics assetsZeroLiabRaw =
      Except.ok { default_metrics with roe := 0, debt_to_equity := 2/3 } ∧
    extract_metrics cashZeroExpensesRaw = Except.ok default_metrics := by
  refine ⟨fun n => rfl, ?_, ?_⟩
  · simp only [extract_metrics, assetsZeroLiabRaw, getFloat, getFloat2, getFloat2Div12,
      exb_ok, exb_pure]
    norm_num [default_metrics]
  · simp only [extract_metrics, cashZeroExpensesRaw, getFloat, getFloat2, getFloat2Div12,
      exb_ok, exb_pure]
    norm_num [default_metrics]

/-- C4: a direct metric field holding a non-numeric value makes
extract_metrics fail (the float cast raises) instead of falling back to
the default as the spec requires. -/
theorem extract_metrics_raises_on_non_numeric :
    extract_metrics nonNumericRaw = Except.error () := by
  rfl

/-- C7 counterexample: the 3-month revenue forecasts are not the
compounded projections the spec describes: with annual revenue 1200 the
code yields 309 for the base scenario where monthly compounding yields
309.09. -/
theorem forecast_not_compounded :
    ((forecast_revenue finC7 ratesC7).scenario_entries.map ScenarioEntry.three_month) ≠
      [spec_compounded_forecast 1200 12 3, spec_compounded_forecast 1200 18 3,
        spec_compounded_forecast 1200 5 3] := by
  norm_num [forecast_revenue, spec_compounded_forecast, finC7, ratesC7,
    GrowthRates.items, pyRound, roundHalfEven]

/-- C7 (amended): for every scenario the 3- and 6-month forecasts apply
the monthly-equivalent rate proportionally (simple growth factor
1 + rate * months), not compounded, and the 12-month forecast applies
the full annual rate directly. -/
theorem forecast_revenue_simple_growth :
    ∀ (fin : ForecastFinancials) (g : GrowthRates) (nm : String) (r : ℚ),
      (nm, r) ∈ g.items →
      ({ scenario := nm,
         three_month := pyRound 2 (fin.revenue / 12 * 3 * (1 + r / 12 / 100 * 3)),
         six_month := pyRound 2 (fin.revenue / 12 * 6 * (1 + r / 12 / 100 * 6)),
         twelve_month := pyRound 2 (fin.revenue * (1 + r / 100)) } : ScenarioEntry) ∈
        (forecast_revenue fin g).scenario_entries := by
  intro fin g nm r hmem
  exact List.mem_map.mpr ⟨(nm, r), hmem, rfl⟩

/-- Witness for C7 (amended): the base scenario entry at annual revenue
1200 and rate 12. -/
theorem forecast_revenue_simple_growth_witness :
    ({ scenario := "base",
       three_month := pyRound 2 ((1200 : ℚ) / 12 * 3 * (1 + 12 / 12 / 100 * 3)),
       six_month := pyRound 2 ((1200 : ℚ) / 12 * 6 * (1 + 12 / 12 / 100 * 6)),
       twelve_month := pyRound 2 ((1200 : ℚ) * (1 + 12 / 100)) } : ScenarioEntry) ∈
      (forecast_revenue finC7 ratesC7).scenario_entries :=
  forecast_revenue_simple_growth finC7 ratesC7 "base" 12 (by decide)

/-- C1 counterexample: generate_forecast reads the wall clock, so two
invocations with identical raw input and industry at different instants
produce different outputs (the critical_date of the runway projection
moves with the clock). -/
theorem generate_forecast_clock_dependent :
    generate_forecast 0 c1raw "Services" ≠ generate_forecast 1 c1raw "Services" := by
  intro h
  have h2 := congrArg (fun f => f.cash_runway_projection.critical_date) h
  simp only [generate_forecast, project_cash_runway, extract_current_values,
    c1raw, List.foldl_nil] at h2
  norm_num at h2

/-- C1 (amended): the clock enters the forecast only through the
critical_date field of the cash-runway projection: with that field
erased, generate_forecast is the same function at every instant (and the
score and benchmark computations of the embedding take no clock at all). -/
theorem generate_forecast_clock_only_critical_date :
    ∀ (t1 t2 : ℚ) (raw_data : CalcRaw) (industry : String),
      erase_critical_date (generate_forecast t1 raw_data industry) =
        erase_critical_date (generate_forecast t2 raw_data industry) := by
  intro t1 t2 raw_data industry
  simp only [generate_forecast, erase_critical_date, project_cash_runway]
  split_ifs <;> rfl

end FinHealth
